import Mathlib

/-!
# Word Conquest: the embedding-to-score pipeline of `src/App.js`

A shallow embedding of the three functions of the `App` component that carry
the game logic (`embedWord2D`, `calculateArea`, `updateMap`) together with the
component state they read and write.

JavaScript numbers are modelled as elements of a linearly ordered field `α`
with a floor function (exact arithmetic; rounding and overflow of IEEE doubles
are not modelled).  Everything that `App.js` imports from outside the
repository's `src/` (the string built-ins, `Math.sqrt`, the vocabulary table
of `./vocabulary.js` and the `hull` function of `hull.js`) is collected in the
record `Env` and taken as a parameter.
-/

namespace WordConquest

/-! ## Data model -/

/-- Collaborators of `App.js` that live outside the file: the string built-ins
`String.prototype.toLowerCase` and `String.prototype.trim`, `Math.sqrt`, the
table `vocabularyMapping` imported from `./vocabulary.js` (a lookup that yields
`undefined`, here `none`, for a word that is not a key) and the function `hull`
imported from `hull.js` (point set and concavity in, boundary polygon out).
The table is read as a partial map from its own keys to coordinate pairs. -/
structure Env (α : Type) where
  toLowerCase : String → String
  trim : String → String
  sqrt : α → α
  vocabularyMapping : String → Option (α × α)
  hull : List (α × α) → Nat → List (α × α)

/-- Styling of the markers, the object literal `{ color: '#1f77b4', size: 4 }`. -/
structure Marker where
  color : String
  size : Nat
deriving DecidableEq, Repr

/-- The `markerData` state object: the accumulated points, column by column
(`x`, `y`, `text`), and the Plotly styling fields.  The last three fields are
absent from the initial object and are added by the first successful
`updateMap`. -/
structure MarkerData (α : Type) where
  x : List α
  y : List α
  mode : String
  type : String
  text : List String
  textposition : Option String
  hoverinfo : Option String
  marker : Option Marker
deriving DecidableEq, Repr

/-- The object stored in the `convexHull` state by `updateMap`. -/
structure HullTrace (α : Type) where
  x : List α
  y : List α
  mode : String
  fill : String
  hoverinfo : String
  type : String
deriving DecidableEq, Repr

/-- The state of the `App` component: one field per `useState` hook. -/
structure State (α : Type) where
  markerData : MarkerData α
  convexHull : Option (HullTrace α)
  errorMessage : Option String
  score : ℤ
  scoreDiff : ℤ
  error : Bool
  userWord : String
deriving DecidableEq, Repr

/-- The initial values passed to the `useState` hooks (lines 19-25). -/
def initialState (α : Type) : State α :=
  { markerData :=
      { x := [], y := [], mode := "markers+text", type := "scatter", text := [],
        textposition := none, hoverinfo := none, marker := none }
    convexHull := none
    errorMessage := none
    score := 0
    scoreDiff := 0
    error := false
    userWord := "" }

/-! ## The functions of `App.js` -/

section Code

variable {α : Type} [LinearOrderedField α]

/-- `embedWord2D` (lines 44-57): normalise the word, look it up, and compress
the raw coordinate into the unit disk; `null` is `none`. -/
def embedWord2D (E : Env α) (word : String) : Option (α × α) :=
  let cleanWord := E.trim (E.toLowerCase word)
  match E.vocabularyMapping cleanWord with
  | some coords =>
    let x := coords.1
    let y := coords.2
    let z := E.sqrt (x * x + y * y)
    let diskX := x / (1 + z)
    let diskY := y / (1 + z)
    some (diskX, diskY)
  | none => none

/-- `calculateArea` (lines 59-67): the loop over `i = 0 .. length-1` is a left
fold over `List.range`; `points[i]` is `getD` (the index is always in range). -/
def calculateArea (points : List (α × α)) : α :=
  let area := (List.range points.length).foldl
    (fun area i =>
      let j := (i + 1) % points.length
      area + (points.getD i 0).1 * (points.getD j 0).2
        - (points.getD j 0).1 * (points.getD i 0).2)
    0
  |area| / 2

/-- The message set by `updateMap` for an unknown word (line 73). -/
def notFoundMessage (newWord : String) : String :=
  "The word \"" ++ newWord ++ "\" was not found in the vocabulary. Please try another word."

/-- The array `points` built on line 95:
`newMarkerData.x.map((x, i) => [x, newMarkerData.y[i]])`.  In every reachable
state the two columns have the same length (`reachable_columns`), so `y[i]`
is defined; the default of `getD` is never used there. -/
def pointsOf (m : MarkerData α) : List (α × α) :=
  m.x.mapIdx (fun i x => (x, m.y.getD i 0))

/-- `updateMap` (lines 69-115) as a function from the state of the current
render to the state after all the `set...` calls have taken effect. -/
def updateMap [FloorRing α] (E : Env α) (s : State α) (newWord : String) : State α :=
  match embedWord2D E newWord with
  | none =>
    { s with errorMessage := some (notFoundMessage newWord), error := true }
  | some coords =>
    let newMarkerData : MarkerData α :=
      { s.markerData with
        x := s.markerData.x ++ [coords.1]
        y := s.markerData.y ++ [coords.2]
        text := s.markerData.text ++ [newWord]
        textposition := some "top center"
        hoverinfo := some "text"
        marker := some { color := "#1f77b4", size := 4 } }
    let points := pointsOf newMarkerData
    let hullPoints := E.hull points 10
    let hullArea := calculateArea hullPoints
    let newScore := ⌊hullArea * 10000⌋
    let diff := newScore - s.score
    { s with
      error := false
      errorMessage := some ""
      markerData := newMarkerData
      convexHull := some
        { x := hullPoints.map (fun point => point.1)
          y := hullPoints.map (fun point => point.2)
          mode := "lines", fill := "toself", hoverinfo := "skip", type := "scatter" }
      score := newScore
      scoreDiff := diff }

/-- The states the component can be in: the initial state and every state
obtained from a reachable one by one call of `updateMap`. -/
inductive Reachable [FloorRing α] (E : Env α) : State α → Prop
  | init : Reachable E (initialState α)
  | step (s : State α) (w : String) : Reachable E s → Reachable E (updateMap E s w)

end Code

/-! ## A concrete environment for evaluating the code on sample inputs -/

/-- The effect of `toLowerCase` on a string of ASCII characters: the letters
`A`-`Z` become `a`-`z`, every other character is kept. -/
def asciiToLowerCase (s : String) : String :=
  String.mk (s.toList.map Char.toLower)

/-- The code points that `trim` removes: the ECMAScript `WhiteSpace` and
`LineTerminator` characters. -/
def isTrimmed (c : Char) : Bool :=
  decide (c.toNat ∈ [9, 10, 11, 12, 13, 32, 160, 5760, 8232, 8233, 8239, 8287, 12288, 65279])
    || (decide (8192 ≤ c.toNat) && decide (c.toNat ≤ 8202))

/-- The built-in `trim`: strip the leading and the trailing run of white space. -/
def jsTrim (s : String) : String :=
  String.mk ((s.toList.dropWhile isTrimmed).reverse.dropWhile isTrimmed).reverse

/-- The vocabulary of the specification's end-to-end example:
`"cat"` at `(3, 4)` and `"dog"` at `(0, 0)`. -/
def demoVocabulary {α : Type} [LinearOrderedField α] (w : String) : Option (α × α) :=
  if w = "cat" then some (3, 4) else if w = "dog" then some (0, 0) else none

/-- An environment for sample runs: the string built-ins above, the example
vocabulary, the given square root, and a hull engine that returns its input
polygon unchanged. -/
def demoEnv {α : Type} [LinearOrderedField α] (sqrt : α → α) : Env α :=
  { toLowerCase := asciiToLowerCase
    trim := jsTrim
    sqrt := sqrt
    vocabularyMapping := demoVocabulary
    hull := fun points _ => points }

section Shoelace

variable {α : Type} [LinearOrderedField α]

end Shoelace

/-! ## Lemmas on the area computation -/

section AreaLemmas

variable {α : Type} [LinearOrderedField α]

end AreaLemmas


/-! ## Lemmas on the point array -/

section PointLemmas

variable {α : Type} [LinearOrderedField α]

end PointLemmas

/-! ## Area scorer (`calculateArea`) -/

section AreaClaims

variable {α : Type} [LinearOrderedField α]

end AreaClaims

/-! ## Disk projector (`embedWord2D`) -/

section ProjectorClaims

variable {α : Type} [LinearOrderedField α]

/-- C5: two words with the same lowercased, trimmed form get the same result
from `embedWord2D`; in particular `" Cat "`, `"cat"` and `"CAT"`, which the
built-ins all normalise to `"cat"`, get the same result. -/
theorem embedWord2D_normalization (E : Env α) :
    (∀ w₁ w₂ : String, E.trim (E.toLowerCase w₁) = E.trim (E.toLowerCase w₂) →
        embedWord2D E w₁ = embedWord2D E w₂)
      ∧ (E.trim (E.toLowerCase " Cat ") = "cat" → E.trim (E.toLowerCase "cat") = "cat" →
          E.trim (E.toLowerCase "CAT") = "cat" →
          embedWord2D E " Cat " = embedWord2D E "cat"
            ∧ embedWord2D E "cat" = embedWord2D E "CAT") := by
  have key : ∀ w₁ w₂ : String, E.trim (E.toLowerCase w₁) = E.trim (E.toLowerCase w₂) →
      embedWord2D E w₁ = embedWord2D E w₂ := by
    intro w₁ w₂ h
    unfold embedWord2D
    simp only [h]
  refine ⟨key, fun h₁ h₂ h₃ => ⟨key _ _ (h₁.trans h₂.symm), key _ _ (h₂.trans h₃.symm)⟩⟩

theorem embedWord2D_normalization_witness :
    (embedWord2D (demoEnv Real.sqrt) "\tDOG\n" = embedWord2D (demoEnv Real.sqrt) "dog")
      ∧ embedWord2D (demoEnv Real.sqrt) " Cat " = embedWord2D (demoEnv Real.sqrt) "cat"
      ∧ embedWord2D (demoEnv Real.sqrt) "cat" = embedWord2D (demoEnv Real.sqrt) "CAT" :=
  ⟨(embedWord2D_normalization (demoEnv Real.sqrt)).1 "\tDOG\n" "dog" (by decide),
   (embedWord2D_normalization (demoEnv Real.sqrt)).2 (by decide) (by decide) (by decide)⟩

end ProjectorClaims

/-! ## Game controller (`updateMap`) -/

section ControllerClaims

variable {α : Type} [LinearOrderedField α] [FloorRing α]

theorem updateMap_of_none (E : Env α) (s : State α) (w : String)
    (h : embedWord2D E w = none) :
    updateMap E s w = { s with errorMessage := some (notFoundMessage w), error := true } := by
  simp only [updateMap, h]

theorem updateMap_of_some (E : Env α) (s : State α) (w : String) (p : α × α)
    (h : embedWord2D E w = some p) :
    updateMap E s w =
      { s with
        error := false
        errorMessage := some ""
        markerData :=
          { s.markerData with
            x := s.markerData.x ++ [p.1]
            y := s.markerData.y ++ [p.2]
            text := s.markerData.text ++ [w]
            textposition := some "top center"
            hoverinfo := some "text"
            marker := some { color := "#1f77b4", size := 4 } }
        convexHull := some
          { x := (E.hull (pointsOf { s.markerData with
                    x := s.markerData.x ++ [p.1]
                    y := s.markerData.y ++ [p.2]
                    text := s.markerData.text ++ [w]
                    textposition := some "top center"
                    hoverinfo := some "text"
                    marker := some { color := "#1f77b4", size := 4 } }) 10).map
                  (fun point => point.1)
            y := (E.hull (pointsOf { s.markerData with
                    x := s.markerData.x ++ [p.1]
                    y := s.markerData.y ++ [p.2]
                    text := s.markerData.text ++ [w]
                    textposition := some "top center"
                    hoverinfo := some "text"
                    marker := some { color := "#1f77b4", size := 4 } }) 10).map
                  (fun point => point.2)
            mode := "lines", fill := "toself", hoverinfo := "skip", type := "scatter" }
        score := ⌊calculateArea (E.hull (pointsOf { s.markerData with
                    x := s.markerData.x ++ [p.1]
                    y := s.markerData.y ++ [p.2]
                    text := s.markerData.text ++ [w]
                    textposition := some "top center"
                    hoverinfo := some "text"
                    marker := some { color := "#1f77b4", size := 4 } }) 10) * 10000⌋
        scoreDiff := ⌊calculateArea (E.hull (pointsOf { s.markerData with
                    x := s.markerData.x ++ [p.1]
                    y := s.markerData.y ++ [p.2]
                    text := s.markerData.text ++ [w]
                    textposition := some "top center"
                    hoverinfo := some "text"
                    marker := some { color := "#1f77b4", size := 4 } }) 10) * 10000⌋
                  - s.score } := by
  simp only [updateMap, h]

theorem reachable_columns (E : Env α) (s : State α) (hr : Reachable E s) :
    s.markerData.x.length = s.markerData.y.length
      ∧ s.markerData.x.length = s.markerData.text.length := by
  induction hr with
  | init => simp [initialState]
  | step s w _ ih =>
    cases h : embedWord2D E w with
    | none => rw [updateMap_of_none E s w h]; exact ih
    | some p => rw [updateMap_of_some E s w p h]; simpa using ih

theorem demo_embed_dog : embedWord2D (demoEnv Real.sqrt) "dog" = some (0, 0) := by
  have h : jsTrim (asciiToLowerCase "dog") = "dog" := by decide
  simp [embedWord2D, demoEnv, demoVocabulary, h]

/-- C1: when `embedWord2D` returns the not-found result for the submitted word,
`updateMap` changes nothing but the error flag and the error message: the
accumulated points (`markerData`, hence `x`, `y`, `text` and their lengths),
the hull, `score` and `scoreDiff` keep the values they had before the call. -/
theorem updateMap_not_found (E : Env α) (s : State α) (w : String)
    (h : embedWord2D E w = none) :
    updateMap E s w = { s with errorMessage := some (notFoundMessage w), error := true }
      ∧ (updateMap E s w).markerData = s.markerData
      ∧ (updateMap E s w).markerData.x = s.markerData.x
      ∧ (updateMap E s w).markerData.y = s.markerData.y
      ∧ (updateMap E s w).markerData.text = s.markerData.text
      ∧ (updateMap E s w).markerData.x.length = s.markerData.x.length
      ∧ (updateMap E s w).markerData.y.length = s.markerData.y.length
      ∧ (updateMap E s w).markerData.text.length = s.markerData.text.length
      ∧ (updateMap E s w).convexHull = s.convexHull
      ∧ (updateMap E s w).score = s.score
      ∧ (updateMap E s w).scoreDiff = s.scoreDiff
      ∧ (updateMap E s w).error = true
      ∧ (updateMap E s w).errorMessage = some (notFoundMessage w) := by
  rw [updateMap_of_none E s w h]
  simp

theorem updateMap_not_found_witness :
    (updateMap (demoEnv Real.sqrt)
        (updateMap (demoEnv Real.sqrt) (initialState ℝ) "dog") "bird").markerData
      = (updateMap (demoEnv Real.sqrt) (initialState ℝ) "dog").markerData
    ∧ (updateMap (demoEnv Real.sqrt)
        (updateMap (demoEnv Real.sqrt) (initialState ℝ) "dog") "bird").score
      = (updateMap (demoEnv Real.sqrt) (initialState ℝ) "dog").score :=
  ⟨(updateMap_not_found (demoEnv Real.sqrt)
      (updateMap (demoEnv Real.sqrt) (initialState ℝ) "dog") "bird" rfl).2.1,
   (updateMap_not_found (demoEnv Real.sqrt)
      (updateMap (demoEnv Real.sqrt) (initialState ℝ) "dog") "bird" rfl).2.2.2.2.2.2.2.2.2.1⟩

/-- C8: for a word found in the vocabulary, `updateMap` appends exactly one
entry at the end of the accumulator: the word as submitted (not its normalised
form) and the projected point.  The earlier entries keep their values and
order, each column grows by one, a second submission of the same word gets a
slot of its own, and the error flag is cleared. -/
theorem updateMap_appends (E : Env α) (s : State α) (w : String) (p : α × α)
    (h : embedWord2D E w = some p) :
    (updateMap E s w).markerData.x = s.markerData.x ++ [p.1]
      ∧ (updateMap E s w).markerData.y = s.markerData.y ++ [p.2]
      ∧ (updateMap E s w).markerData.text = s.markerData.text ++ [w]
      ∧ (updateMap E s w).markerData.x.length = s.markerData.x.length + 1
      ∧ (updateMap E s w).markerData.y.length = s.markerData.y.length + 1
      ∧ (updateMap E s w).markerData.text.length = s.markerData.text.length + 1
      ∧ (updateMap E (updateMap E s w) w).markerData.x = s.markerData.x ++ [p.1, p.1]
      ∧ (updateMap E (updateMap E s w) w).markerData.y = s.markerData.y ++ [p.2, p.2]
      ∧ (updateMap E (updateMap E s w) w).markerData.text = s.markerData.text ++ [w, w]
      ∧ (updateMap E s w).error = false
      ∧ (updateMap E s w).errorMessage = some "" := by
  rw [updateMap_of_some E (updateMap E s w) w p h, updateMap_of_some E s w p h]
  simp

theorem updateMap_appends_witness :
    (updateMap (demoEnv Real.sqrt)
        (updateMap (demoEnv Real.sqrt) (initialState ℝ) "dog") "dog").markerData.text
      = ["dog", "dog"] := by
  have h := (updateMap_appends (demoEnv Real.sqrt) (initialState ℝ) "dog" (0, 0)
    demo_embed_dog).2.2.2.2.2.2.2.2.1
  simpa [initialState] using h

end ControllerClaims

end WordConquest
